import Mathlib

/-!
Shallow embedding of the data-retrieval, reconciliation, update and
photo-upload logic of the preschool customer management repository
(`src/services/googleSheetsApi.ts` and the photo service).  Impure inputs of
the TypeScript code — the environment configuration, the outcome of each
remote fetch attempt, the current date, generated identifiers and the
browser-local storage contents — are passed as explicit parameters, and the
observable effects (backoff sleeps, attempt counts, cache contents, issued
HTTP writes) are returned as data.
-/

/-- JS string disjunction `a || b`: the empty string is the only falsy string. -/
def jsOr (a b : String) : String := if a = "" then b else a

/-- Does `pat` occur at the head of the second list? -/
def matchesAt : List Char → List Char → Bool
  | [], _ => true
  | _ :: _, [] => false
  | p :: ps, c :: cs => p == c && matchesAt ps cs

/-- Substring occurrence on character lists. -/
def listHasSub (pat : List Char) : List Char → Bool
  | [] => pat.isEmpty
  | c :: rest => matchesAt pat (c :: rest) || listHasSub pat rest

/-- JS `s.includes(pat)`. -/
def strIncludes (s pat : String) : Bool := listHasSub pat.data s.data

/-- Numeric value of a decimal digit character. -/
def digitVal (c : Char) : Nat := c.toNat - 48

/-- Decimal digit character for a value below ten. -/
def digitChar48 (d : Nat) : Char := Char.ofNat (48 + d)

/-- Decimal digits of a natural number, most significant first, with explicit
fuel so that the definition is structural; this is JS `String(n)` for the
nonnegative integers the code feeds it. -/
def natCharsAux : Nat → Nat → List Char
  | 0, _ => []
  | fuel + 1, n =>
    if n < 10 then [digitChar48 n]
    else natCharsAux fuel (n / 10) ++ [digitChar48 (n % 10)]

/-- Decimal representation of a natural number as a character list. -/
def natChars (n : Nat) : List Char := natCharsAux (n + 1) n

/-- JS `padStart(3, c)` applied to a character list with pad character zero. -/
def padStart3 (l : List Char) : List Char := List.replicate (3 - l.length) '0' ++ l

/-- The identifier assigned to a parsed data row: the letter C followed by the
decimal row number zero-padded to three digits. -/
def formatCustomerId (n : Nat) : String := String.mk ('C' :: padStart3 (natChars n))

/-- Whitespace skipped by JS numeric parsing. -/
def isJsSpace (c : Char) : Bool := c == ' ' || c == '\t' || c == '\n' || c == '\r'

/-- Value of a list of decimal digit characters, most significant first. -/
def digitsVal (l : List Char) : Nat := l.foldl (fun acc c => acc * 10 + digitVal c) 0

/-- Strips one optional sign character, returning whether the value is negated. -/
def stripSign : List Char → Bool × List Char
  | '-' :: r => (true, r)
  | '+' :: r => (false, r)
  | r => (false, r)

/-- JS `parseInt(s)` on base-10 input, with `none` playing the role of `NaN`;
the hexadecimal auto-detection of `parseInt` is not reachable from the sheet
columns the code parses. -/
def parseIntJS (s : String) : Option Int :=
  let cs := s.data.dropWhile isJsSpace
  let sr := stripSign cs
  let ds := sr.2.takeWhile Char.isDigit
  if ds.isEmpty then none
  else some ((if sr.1 then -1 else 1) * (digitsVal ds : Int))

/-- JS `x || 0` on a possibly-NaN number: NaN and zero both give zero. -/
def intOrZero : Option Int → Int
  | none => 0
  | some v => v

/-- JS `x || 0` on a possibly-NaN float. -/
def ratOrZero : Option ℚ → ℚ
  | none => 0
  | some v => v

/-- Signed exponent digits of a JS float literal; absent digits mean zero. -/
def expDigits (r : List Char) : Int :=
  let sr := stripSign r
  (if sr.1 then -1 else 1) * (digitsVal (sr.2.takeWhile Char.isDigit) : Int)

/-- Exponent marker of a JS float literal. -/
def expPart : List Char → Int
  | 'e' :: r => expDigits r
  | 'E' :: r => expDigits r
  | _ => 0

/-- JS `parseFloat(s)` on finite decimal literals, as an exact rational, with
`none` playing the role of `NaN`; the `Infinity` literal is not reachable from
the sheet columns the code parses. -/
def parseFloatJS (s : String) : Option ℚ :=
  let cs := s.data.dropWhile isJsSpace
  let sr := stripSign cs
  let intPart := sr.2.takeWhile Char.isDigit
  let rest := sr.2.dropWhile Char.isDigit
  let fracPart := match rest with
    | '.' :: r => r.takeWhile Char.isDigit
    | _ => []
  let rest2 := match rest with
    | '.' :: r => r.dropWhile Char.isDigit
    | _ => rest
  if intPart.isEmpty && fracPart.isEmpty then none
  else
    let mantissa : ℚ :=
      (digitsVal intPart : ℚ) + (digitsVal fracPart : ℚ) / ((10 : ℚ) ^ fracPart.length)
    some ((if sr.1 then -1 else 1) * mantissa * (10 : ℚ) ^ expPart rest2)

/-- One customer/pet record, after the `CustomerData` interface; `petType` and
`status` are plain strings because the TS as-casts perform no validation. -/
structure Customer where
  id : String
  name : String
  furigana : String
  email : String
  phone : String
  address : String
  petName : String
  petType : String
  breed : String
  age : Int
  weight : ℚ
  imageUrl : String
  notes : String
  createdAt : String
  lastVisit : String
  status : String
deriving DecidableEq

/-- JS row indexing: a cell that is absent reads as the empty string. -/
def cell (row : List String) (i : Nat) : String := row.getD i ""

/-- Builds the record for the data row at 0-based `index`, mirroring the
object literal inside `parseSheetData`; `today` stands for the date string
the code computes from the current time for a missing creation date. -/
def mkCustomer (index : Nat) (row : List String) (today : String) : Customer :=
  ⟨ formatCustomerId (index + 1)
  , jsOr (cell row 1) ""
  , jsOr (cell row 2) ""
  , jsOr (cell row 3) ""
  , jsOr (cell row 4) ""
  , jsOr (cell row 5) ""
  , jsOr (cell row 6) ""
  , jsOr (cell row 7) "その他"
  , ""
  , intOrZero (parseIntJS (jsOr (cell row 8) "0"))
  , ratOrZero (parseFloatJS (jsOr (cell row 9) "0"))
  , ""
  , jsOr (cell row 10) ""
  , jsOr (cell row 11) today
  , jsOr (cell row 12) ""
  , "active" ⟩

/-- The row filter of `parseSheetData` under JS truthiness: both the owner
name and the pet name must be non-empty strings (no trimming is applied). -/
def keepCustomer (c : Customer) : Bool := (!(c.name == "")) && (!(c.petName == ""))

/-- The indexed map over the data rows of `parseSheetData`. -/
def parseRows (today : String) : Nat → List (List String) → List Customer
  | _, [] => []
  | index, row :: rest => mkCustomer index row today :: parseRows today (index + 1) rest

/-- `parseSheetData`: grids with fewer than two rows yield no records;
otherwise the header row is discarded and the data rows are mapped
positionally and then filtered. -/
def parseSheetData (values : List (List String)) (today : String) : List Customer :=
  if values.length < 2 then []
  else (parseRows today 0 (values.drop 1)).filter keepCustomer

/-- The MAX RETRIES constant of the service. -/
def MAX_RETRIES : Nat := 3

/-- The base backoff delay in milliseconds. -/
def RETRY_DELAY : Nat := 2000

/-- The minimum interval between API calls in milliseconds. -/
def MIN_API_INTERVAL : Nat := 1000

/-- Rate-limit classification of an error message: it mentions the HTTP 429
status or the RATE LIMIT EXCEEDED signal. -/
def isRateLimitError (msg : String) : Bool :=
  strIncludes msg "429" || strIncludes msg "RATE_LIMIT_EXCEEDED"

/-- Outcome of one call of the underlying remote fetch. -/
abbrev FetchOutcome := Except String (List Customer)

instance {ε α : Type} [DecidableEq ε] [DecidableEq α] : DecidableEq (Except ε α)
  | .ok a, .ok b =>
    match decEq a b with
    | isTrue h => isTrue (congrArg Except.ok h)
    | isFalse h => isFalse (fun e => h (Except.ok.inj e))
  | .ok _, .error _ => isFalse (fun e => Except.noConfusion e)
  | .error _, .ok _ => isFalse (fun e => Except.noConfusion e)
  | .error a, .error b =>
    match decEq a b with
    | isTrue h => isTrue (congrArg Except.error h)
    | isFalse h => isFalse (fun e => h (Except.error.inj e))

/-- Is this outcome a failure of the rate-limit class? -/
def isRateLimitOutcome : FetchOutcome → Bool
  | .error msg => isRateLimitError msg
  | .ok _ => false

/-- The message of the error thrown after the retry loop exits. -/
def maxRetriesMsg : String := "最大リトライ回数に達しました"

/-- The message of the error thrown when an updated record is not found. -/
def notFoundMsg : String := "顧客が見つかりません"

/-- Observable trace of one retry cycle: the final outcome, the backoff
sleeps performed inside the loop in order, and the number of remote attempts. -/
structure RetryLog where
  result : FetchOutcome
  backoffDelays : List Nat
  attemptsMade : Nat
deriving DecidableEq

/-- Body of the bounded retry loop; `oracle` gives the outcome of the remote
fetch at each attempt number, `fuel` counts the remaining loop iterations so
that exhaustion reaches the final throw of the TS function. -/
def retryGo (oracle : Nat → FetchOutcome) (localCache : List Customer) :
    Nat → Nat → RetryLog
  | _, 0 => ⟨.error maxRetriesMsg, [], 0⟩
  | attempt, fuel + 1 =>
    match oracle attempt with
    | .ok data => ⟨.ok data, [], 1⟩
    | .error msg =>
      if isRateLimitError msg then
        let rest := retryGo oracle localCache (attempt + 1) fuel
        ⟨rest.result, RETRY_DELAY * 2 ^ (attempt - 1) :: rest.backoffDelays,
          rest.attemptsMade + 1⟩
      else if attempt == MAX_RETRIES then
        ⟨.ok (if localCache.length > 0 then localCache else []), [], 1⟩
      else ⟨.error msg, [], 1⟩

/-- The retry wrapper around the remote fetch, started at attempt one. -/
def fetchFromGoogleSheetsWithRetry (oracle : Nat → FetchOutcome)
    (localCache : List Customer) : RetryLog :=
  retryGo oracle localCache 1 MAX_RETRIES

/-- The wait inserted before a fetch cycle when the previous API call is more
recent than the minimum interval. -/
def throttleWait (now lastApiCall : Nat) : Nat :=
  if now - lastApiCall < MIN_API_INTERVAL then MIN_API_INTERVAL - (now - lastApiCall)
  else 0

/-- The environment configuration read by the service constructor. -/
structure SheetsConfig where
  nodeEnv : String
  spreadsheetId : String
  apiKey : String
deriving DecidableEq

/-- The guard of the production branch of `getCustomers`: production
environment with a non-empty source identifier and a non-empty API key. -/
def prodGuard (cfg : SheetsConfig) : Bool :=
  cfg.nodeEnv == "production" && !(cfg.spreadsheetId == "") && !(cfg.apiKey == "")

/-- `saveLocalCustomers`: the storage key is overwritten wholesale with the
given record set. -/
def saveLocalCustomers (customers : List Customer) : List Customer := customers

/-- Observable outcome of `getCustomers`: the value returned or the error
raised, the cache contents afterwards, and the number of remote attempts. -/
structure GetOutcome where
  result : FetchOutcome
  cacheAfter : List Customer
  remoteAttempts : Nat
deriving DecidableEq

/-- `getCustomers`: in the guarded production branch a successful fetch is
saved to the cache and any failure degrades to the cache contents or empty;
every other configuration falls through to the unguarded fetch, which neither
saves to the cache nor falls back on failure. -/
def getCustomers (cfg : SheetsConfig) (cache : List Customer)
    (oracle : Nat → FetchOutcome) : GetOutcome :=
  let log := fetchFromGoogleSheetsWithRetry oracle cache
  if prodGuard cfg then
    match log.result with
    | .ok data => ⟨.ok data, saveLocalCustomers data, log.attemptsMade⟩
    | .error _ =>
      if cache.length > 0 then ⟨.ok cache, cache, log.attemptsMade⟩
      else ⟨.ok [], cache, log.attemptsMade⟩
  else ⟨log.result, cache, log.attemptsMade⟩

/-- One cell of the sheet row written back on update. -/
inductive Cell
  | s (v : String)
  | i (v : Int)
  | q (v : ℚ)
deriving DecidableEq

/-- The rowData array built by `updateCustomerInSheets`: thirteen columns in
the fixed form order, the timestamp left empty. -/
def sheetRowData (c : Customer) : List Cell :=
  [ Cell.s ""
  , Cell.s c.name
  , Cell.s (jsOr c.furigana "")
  , Cell.s c.email
  , Cell.s c.phone
  , Cell.s c.address
  , Cell.s c.petName
  , Cell.s c.petType
  , Cell.i c.age
  , Cell.q c.weight
  , Cell.s c.notes
  , Cell.s c.createdAt
  , Cell.s c.lastVisit ]

/-- The HTTP write issued for an update: target sheet row, method and body. -/
structure UpdatePlan where
  rowNumber : Nat
  httpMethod : String
  values : List (List Cell)
deriving DecidableEq

/-- JS `Array.prototype.findIndex`: index of the first match, or minus one. -/
def findIndexJS (l : List Customer) (p : Customer → Bool) : Int :=
  match l.findIdx? p with
  | some i => (i : Int)
  | none => -1

/-- `updateCustomerInSheets` applied to the freshly fetched record sequence:
the row is located by identifier in that sequence, the sheet row is the found
index plus two, and a single thirteen-column row is written with a PUT. -/
def updateCustomerInSheets (fetched : List Customer) (customer : Customer) :
    Except String UpdatePlan :=
  let customerIndex := findIndexJS fetched (fun c => c.id == customer.id)
  if customerIndex == -1 then Except.error notFoundMsg
  else Except.ok ⟨customerIndex.toNat + 2, "PUT", [sheetRowData customer]⟩

/-- A locally stored photo attachment, after the `PetPhoto` interface. -/
structure PetPhoto where
  id : String
  customerId : String
  fileName : String
  dataUrl : String
  fileSize : Nat
  uploadedAt : String
  description : Option String
deriving DecidableEq

/-- The result record returned by `uploadPhoto`. -/
structure PhotoUploadResult where
  success : Bool
  photo : Option PetPhoto
  error : Option String
deriving DecidableEq

/-- The per-customer photo count cap of the photo service. -/
def MAX_PHOTOS_PER_CUSTOMER : Nat := 50

/-- The file size cap of the photo service in bytes. -/
def MAX_FILE_SIZE : Nat := 5 * 1024 * 1024

/-- The parts of a browser `File` object the upload path reads. -/
structure FileUpload where
  name : String
  size : Nat
deriving DecidableEq

/-- The photos of one customer in the store. -/
def getPhotosByCustomerId (store : List PetPhoto) (customerId : String) :
    List PetPhoto :=
  store.filter (fun p => p.customerId == customerId)

/-- `uploadPhoto` on the stored photo list: rejects oversized files and full
customers without touching the store, otherwise appends the new photo; the
generated identifier, encoded payload and timestamp are passed in. -/
def uploadPhoto (store : List PetPhoto) (customerId : String) (file : FileUpload)
    (description : Option String) (newId dataUrl uploadedAt : String) :
    PhotoUploadResult × List PetPhoto :=
  if file.size > MAX_FILE_SIZE then
    (⟨false, none, some "ファイルサイズが大きすぎます。最大5MBまでです。"⟩, store)
  else if (getPhotosByCustomerId store customerId).length ≥ MAX_PHOTOS_PER_CUSTOMER then
    (⟨false, none, some "1顧客あたり最大50枚までです。"⟩, store)
  else
    let photo : PetPhoto := ⟨newId, customerId, file.name, dataUrl, file.size,
      uploadedAt, description⟩
    (⟨true, some photo, none⟩, store ++ [photo])

/-! ### Decimal representation lemmas -/

theorem natCharsAux_fuel (f : Nat) : ∀ (g n : Nat), n < f → n < g →
    natCharsAux f n = natCharsAux g n := by
  induction f with
  | zero => intro g n hf _; omega
  | succ f ih =>
    intro g n hf hg
    cases g with
    | zero => omega
    | succ g =>
      simp only [natCharsAux]
      by_cases h : n < 10
      · simp [h]
      · have hd : n / 10 < n := Nat.div_lt_self (by omega) (by omega)
        rw [if_neg h, if_neg h, ih g (n / 10) (by omega) (by omega)]

theorem natChars_eq (n : Nat) :
    natChars n = if n < 10 then [digitChar48 n]
      else natChars (n / 10) ++ [digitChar48 (n % 10)] := by
  by_cases h : n < 10
  · simp [natChars, natCharsAux, h]
  · have hd : n / 10 < n := Nat.div_lt_self (by omega) (by omega)
    rw [if_neg h]
    have h1 : natChars n = natCharsAux n (n / 10) ++ [digitChar48 (n % 10)] := by
      simp [natChars, natCharsAux, h]
    rw [h1, natCharsAux_fuel n (n / 10 + 1) (n / 10) (by omega) (by omega)]
    rfl

theorem digitVal_digitChar48 (d : Nat) (h : d < 10) :
    digitVal (digitChar48 d) = d := by
  interval_cases d <;> decide

theorem digitChar48_ne_zero (d : Nat) (h1 : 1 ≤ d) (h2 : d < 10) :
    (digitChar48 d == '0') = false := by
  interval_cases d <;> decide

theorem digitsVal_append (xs : List Char) (c : Char) :
    digitsVal (xs ++ [c]) = digitsVal xs * 10 + digitVal c := by
  simp [digitsVal, List.foldl_append]

theorem digitsVal_natChars (n : Nat) : digitsVal (natChars n) = n := by
  induction n using Nat.strong_induction_on with
  | _ n ih =>
    rw [natChars_eq]
    by_cases h : n < 10
    · simp only [if_pos h, digitsVal, List.foldl]
      rw [Nat.zero_mul, Nat.zero_add, digitVal_digitChar48 n h]
    · have hd : n / 10 < n := Nat.div_lt_self (by omega) (by omega)
      rw [if_neg h, digitsVal_append, ih (n / 10) hd,
        digitVal_digitChar48 (n % 10) (Nat.mod_lt n (by omega))]
      omega

theorem natChars_head (n : Nat) : 1 ≤ n →
    ∃ c cs, natChars n = c :: cs ∧ (c == '0') = false := by
  induction n using Nat.strong_induction_on with
  | _ n ih =>
    intro hn
    rw [natChars_eq]
    by_cases h : n < 10
    · exact ⟨digitChar48 n, [], by simp [h], digitChar48_ne_zero n hn h⟩
    · have hd : n / 10 < n := Nat.div_lt_self (by omega) (by omega)
      have h10 : 1 ≤ n / 10 := (Nat.one_le_div_iff (by omega)).mpr (by omega)
      obtain ⟨c, cs, hcs, hc⟩ := ih (n / 10) hd h10
      exact ⟨c, cs ++ [digitChar48 (n % 10)], by rw [if_neg h, hcs]; rfl, hc⟩

theorem dropWhile_zeros (k : Nat) (c : Char) (cs : List Char)
    (hc : (c == '0') = false) :
    List.dropWhile (fun x => x == '0') (List.replicate k '0' ++ c :: cs) = c :: cs := by
  induction k with
  | zero => simp [List.dropWhile_cons, hc]
  | succ k ih => simpa [List.replicate_succ, List.dropWhile_cons] using ih

theorem formatCustomerId_inj (n m : Nat) (hn : 1 ≤ n) (hm : 1 ≤ m)
    (h : formatCustomerId n = formatCustomerId m) : n = m := by
  obtain ⟨c, cs, hcs, hc⟩ := natChars_head n hn
  obtain ⟨d, ds, hds, hd⟩ := natChars_head m hm
  have hdata : 'C' :: padStart3 (natChars n) = 'C' :: padStart3 (natChars m) :=
    congrArg String.data h
  have hpad : padStart3 (natChars n) = padStart3 (natChars m) := by
    injection hdata
  have hnc : natChars n = natChars m := by
    have hdw := congrArg (List.dropWhile (fun x => x == '0')) hpad
    simp only [padStart3] at hdw
    rw [hcs, hds] at hdw
    rw [dropWhile_zeros _ c cs hc, dropWhile_zeros _ d ds hd] at hdw
    rw [hcs, hds, hdw]
  have hv := congrArg digitsVal hnc
  rwa [digitsVal_natChars, digitsVal_natChars] at hv

/-! ### Parsing lemmas -/

theorem jsOr_empty (s : String) : jsOr s "" = s := by
  unfold jsOr
  split <;> simp_all

theorem mkCustomer_name (m : Nat) (row : List String) (today : String) :
    (mkCustomer m row today).name = cell row 1 := by
  simp [mkCustomer, jsOr_empty]

theorem mkCustomer_petName (m : Nat) (row : List String) (today : String) :
    (mkCustomer m row today).petName = cell row 6 := by
  simp [mkCustomer, jsOr_empty]

theorem mkCustomer_id (m : Nat) (row : List String) (today : String) :
    (mkCustomer m row today).id = formatCustomerId (m + 1) := by
  simp [mkCustomer]

theorem keep_mkCustomer (m : Nat) (row : List String) (today : String)
    (h1 : cell row 1 ≠ "") (h6 : cell row 6 ≠ "") :
    keepCustomer (mkCustomer m row today) = true := by
  simp [keepCustomer, mkCustomer_name, mkCustomer_petName, h1, h6]

theorem parseRows_length (today : String) (rows : List (List String)) :
    ∀ idx, (parseRows today idx rows).length = rows.length := by
  induction rows with
  | nil => intro idx; rfl
  | cons r rs ih => intro idx; simp [parseRows, ih]

theorem parseRows_get (today : String) (rows : List (List String)) :
    ∀ (idx k : Nat) (hk : k < (parseRows today idx rows).length),
      (parseRows today idx rows).get ⟨k, hk⟩ =
        mkCustomer (idx + k) (rows.getD k []) today := by
  induction rows with
  | nil => intro idx k hk; simp [parseRows] at hk
  | cons r rs ih =>
    intro idx k hk
    cases k with
    | zero => simp [parseRows]
    | succ k =>
      have hk2 : k < (parseRows today (idx + 1) rs).length := by
        simpa [parseRows] using hk
      have hrec := ih (idx + 1) k hk2
      have harith : idx + 1 + k = idx + (k + 1) := by omega
      simpa [parseRows, harith] using hrec

theorem mem_parseRows (today : String) (rows : List (List String)) :
    ∀ idx c, c ∈ parseRows today idx rows →
      ∃ m row, idx ≤ m ∧ row ∈ rows ∧ c = mkCustomer m row today := by
  induction rows with
  | nil => intro idx c hc; simp [parseRows] at hc
  | cons r rs ih =>
    intro idx c hc
    simp only [parseRows, List.mem_cons] at hc
    rcases hc with h | h
    · exact ⟨idx, r, Nat.le_refl idx, List.mem_cons_self r rs, h⟩
    · obtain ⟨m, row, hm, hrow, hceq⟩ := ih (idx + 1) c h
      exact ⟨m, row, by omega, List.mem_cons_of_mem r hrow, hceq⟩

theorem parseRows_filter_all (today : String) (rows : List (List String))
    (h : ∀ row ∈ rows, cell row 1 ≠ "" ∧ cell row 6 ≠ "") (idx : Nat) :
    (parseRows today idx rows).filter keepCustomer = parseRows today idx rows := by
  apply List.filter_eq_self.mpr
  intro c hc
  obtain ⟨m, row, _, hrow, rfl⟩ := mem_parseRows today rows idx c hc
  exact keep_mkCustomer m row today (h row hrow).1 (h row hrow).2

theorem parseSheetData_cons (header : List String) (rows : List (List String))
    (today : String) :
    parseSheetData (header :: rows) today =
      (parseRows today 0 rows).filter keepCustomer := by
  cases rows with
  | nil => simp [parseSheetData, parseRows]
  | cons r rs => simp [parseSheetData]

theorem parseRows_pairwise (today : String) (rows : List (List String)) :
    ∀ idx, (parseRows today idx rows).Pairwise (fun a b => a.id ≠ b.id) := by
  induction rows with
  | nil => intro idx; simp [parseRows]
  | cons r rs ih =>
    intro idx
    simp only [parseRows]
    refine List.Pairwise.cons ?_ (ih (idx + 1))
    intro b hb
    obtain ⟨m, row, hm, _, rfl⟩ := mem_parseRows today rs (idx + 1) b hb
    rw [mkCustomer_id, mkCustomer_id]
    intro heq
    have := formatCustomerId_inj (idx + 1) (m + 1) (by omega) (by omega) heq
    omega

/-- C1: for a grid of one header row and N data rows in which every data row
has a non-empty owner name cell and a non-empty pet name cell, parseSheetData
returns exactly N records, and the record built from data row k carries the
identifier formatted from k, zero-padded to three digits, in row order. -/
theorem c1_parse_count_and_ids (header : List String) (rows : List (List String))
    (today : String)
    (h : ∀ row ∈ rows, cell row 1 ≠ "" ∧ cell row 6 ≠ "") :
    (parseSheetData (header :: rows) today).length = rows.length ∧
    ∀ (k : Nat) (hk : k < (parseSheetData (header :: rows) today).length),
      ((parseSheetData (header :: rows) today).get ⟨k, hk⟩).id =
        formatCustomerId (k + 1) := by
  rw [parseSheetData_cons, parseRows_filter_all today rows h 0]
  refine ⟨parseRows_length today rows 0, ?_⟩
  intro k hk
  rw [parseRows_get today rows 0 k hk, mkCustomer_id]
  simp

def headerW : List String :=
  ["タイムスタンプ", "お名前", "ふりがな", "メール", "電話", "住所", "ペット名",
   "犬種", "年齢", "体重", "備考", "登録日", "最終来店"]

def rowsW : List (List String) :=
  [["t1", "山田花子", "やまだはなこ", "h@example.com", "090", "東京", "ポチ", "犬",
    "3", "4.5", "", "2024-01-01", ""],
   ["t2", "佐藤太郎", "さとうたろう", "t@example.com", "080", "大阪", "タマ", "猫",
    "2", "3.2", "", "2024-01-02", ""]]

theorem c1_witness :
    (∀ row ∈ rowsW, cell row 1 ≠ "" ∧ cell row 6 ≠ "") ∧
    ((parseSheetData (headerW :: rowsW) "2024-02-01").length = rowsW.length ∧
     ∀ (k : Nat) (hk : k < (parseSheetData (headerW :: rowsW) "2024-02-01").length),
       ((parseSheetData (headerW :: rowsW) "2024-02-01").get ⟨k, hk⟩).id =
         formatCustomerId (k + 1)) :=
  ⟨by decide, c1_parse_count_and_ids headerW rowsW "2024-02-01" (by decide)⟩

/-- C2 counterexample: a data row whose owner name cell is a single space and
whose pet name cell is non-empty is kept by parseSheetData, not dropped: the
parsed result consists of a record whose name is the whitespace string. -/
theorem c2_counterexample :
    ((parseSheetData [["ts"], ["t", " ", "", "", "", "", "ポチ"]] "2024-01-01").map
        Customer.name) = [" "] ∧
    (parseSheetData [["ts"], ["t", " ", "", "", "", "", "ポチ"]] "2024-01-01").length
      = 1 := by
  constructor <;> decide

/-- C2 amended: a data row is excluded from the result of parseSheetData
unless both its owner-name cell and its pet-name cell are non-empty as raw
strings; no whitespace trimming is applied, so a whitespace-only owner name
counts as present and such rows are all kept. -/
theorem c2_untrimmed_filter (values : List (List String)) (today : String) :
    (∀ c ∈ parseSheetData values today, c.name ≠ "" ∧ c.petName ≠ "") ∧
    (∀ header rows, values = header :: rows →
      (∀ row ∈ rows, cell row 1 ≠ "" ∧ cell row 6 ≠ "") →
      (parseSheetData values today).length = rows.length) := by
  constructor
  · intro c hc
    have hkeep : keepCustomer c = true := by
      unfold parseSheetData at hc
      split at hc
      · simp at hc
      · exact List.of_mem_filter hc
    have := hkeep
    unfold keepCustomer at this
    constructor
    · intro he
      simp [he] at this
    · intro he
      simp [he] at this
  · rintro header rows rfl h
    rw [parseSheetData_cons, parseRows_filter_all today rows h 0]
    exact parseRows_length today rows 0

theorem c2_witness :
    ((parseSheetData [["ts"], ["t", " ", "", "", "", "", "ポチ"]] "2024-01-01").get
        ⟨0, by decide⟩ ∈
      parseSheetData [["ts"], ["t", " ", "", "", "", "", "ポチ"]] "2024-01-01") ∧
    (((parseSheetData [["ts"], ["t", " ", "", "", "", "", "ポチ"]] "2024-01-01").get
        ⟨0, by decide⟩).name ≠ "" ∧
     ((parseSheetData [["ts"], ["t", " ", "", "", "", "", "ポチ"]] "2024-01-01").get
        ⟨0, by decide⟩).petName ≠ "") :=
  ⟨List.get_mem _ _ _,
   (c2_untrimmed_filter [["ts"], ["t", " ", "", "", "", "", "ポチ"]] "2024-01-01").1
     _ (List.get_mem _ _ _)⟩

/-- C9: the record set returned by parseSheetData always has pairwise
distinct identifiers, because each identifier is derived from its row's
position and the position-to-identifier formatting is injective. -/
theorem c9_ids_pairwise_distinct (values : List (List String)) (today : String) :
    (parseSheetData values today).Pairwise (fun a b => a.id ≠ b.id) := by
  unfold parseSheetData
  split
  · exact List.Pairwise.nil
  · exact (parseRows_pairwise today (values.drop 1) 0).sublist
      (List.filter_sublist _)

/-! ### Retry loop lemmas -/

theorem retryGo_attempts_le (oracle : Nat → FetchOutcome) (cache : List Customer) :
    ∀ fuel attempt, (retryGo oracle cache attempt fuel).attemptsMade ≤ fuel := by
  intro fuel
  induction fuel with
  | zero => intro attempt; simp [retryGo]
  | succ fuel ih =>
    intro attempt
    have hrec := ih (attempt + 1)
    simp only [retryGo]
    cases oracle attempt with
    | ok data => simp
    | error msg =>
      by_cases hrl : isRateLimitError msg = true
      · simp [hrl]
        omega
      · by_cases hmax : (attempt == MAX_RETRIES) = true
        · simp [hrl, hmax]
        · simp [hrl, hmax]

theorem retryGo_rateLimit (oracle : Nat → FetchOutcome) (cache : List Customer)
    (attempt fuel : Nat) (h : isRateLimitOutcome (oracle attempt) = true) :
    retryGo oracle cache attempt (fuel + 1) =
      ⟨(retryGo oracle cache (attempt + 1) fuel).result,
        RETRY_DELAY * 2 ^ (attempt - 1) ::
          (retryGo oracle cache (attempt + 1) fuel).backoffDelays,
        (retryGo oracle cache (attempt + 1) fuel).attemptsMade + 1⟩ := by
  cases ho : oracle attempt with
  | ok data => simp [isRateLimitOutcome, ho] at h
  | error msg =>
    simp only [isRateLimitOutcome, ho] at h
    simp [retryGo, ho, h]

theorem fetch_three_rateLimits (oracle : Nat → FetchOutcome) (cache : List Customer)
    (h1 : isRateLimitOutcome (oracle 1) = true)
    (h2 : isRateLimitOutcome (oracle 2) = true)
    (h3 : isRateLimitOutcome (oracle 3) = true) :
    fetchFromGoogleSheetsWithRetry oracle cache =
      ⟨Except.error maxRetriesMsg, [2000, 4000, 8000], 3⟩ := by
  cases ho1 : oracle 1 with
  | ok d => simp [isRateLimitOutcome, ho1] at h1
  | error m1 =>
    cases ho2 : oracle 2 with
    | ok d => simp [isRateLimitOutcome, ho2] at h2
    | error m2 =>
      cases ho3 : oracle 3 with
      | ok d => simp [isRateLimitOutcome, ho3] at h3
      | error m3 =>
        simp only [isRateLimitOutcome, ho1] at h1
        simp only [isRateLimitOutcome, ho2] at h2
        simp only [isRateLimitOutcome, ho3] at h3
        simp [fetchFromGoogleSheetsWithRetry, MAX_RETRIES, retryGo, ho1, ho2, ho3,
          h1, h2, h3, RETRY_DELAY]

theorem fetch_attempts_pos (oracle : Nat → FetchOutcome) (cache : List Customer) :
    1 ≤ (fetchFromGoogleSheetsWithRetry oracle cache).attemptsMade := by
  simp only [fetchFromGoogleSheetsWithRetry, MAX_RETRIES]
  cases ho : oracle 1 with
  | ok d => simp [retryGo, ho]
  | error msg =>
    by_cases hrl : isRateLimitError msg = true
    · have := retryGo_rateLimit oracle cache 1 2
        (by simp [isRateLimitOutcome, ho, hrl])
      rw [show (3 : Nat) = 2 + 1 from rfl, this]
      simp
    · simp [retryGo, ho, hrl, MAX_RETRIES]

/-- C4: within one fetch cycle at most three remote attempts are ever made,
and whenever the attempts up to and including attempt a (with a at most 3) all
fail with rate-limit-class errors, the backoff sleep recorded after attempt a
is exactly 2000 times 2 to the power (a - 1) milliseconds; in particular the
delay before attempt 3 after two rate-limit failures is 4000 ms. -/
theorem c4_backoff_delays_and_attempt_bound (oracle : Nat → FetchOutcome)
    (cache : List Customer) :
    (fetchFromGoogleSheetsWithRetry oracle cache).attemptsMade ≤ 3 ∧
    ∀ a, 1 ≤ a → a ≤ 3 →
      (∀ b, 1 ≤ b → b ≤ a → isRateLimitOutcome (oracle b) = true) →
      (fetchFromGoogleSheetsWithRetry oracle cache).backoffDelays.getD (a - 1) 0 =
        2000 * 2 ^ (a - 1) := by
  constructor
  · exact retryGo_attempts_le oracle cache 3 1
  · intro a ha1 ha3 hrl
    have e1 : retryGo oracle cache 1 3 =
        ⟨(retryGo oracle cache 2 2).result,
          RETRY_DELAY * 2 ^ 0 :: (retryGo oracle cache 2 2).backoffDelays,
          (retryGo oracle cache 2 2).attemptsMade + 1⟩ :=
      retryGo_rateLimit oracle cache 1 2 (hrl 1 (by omega) (by omega))
    interval_cases a
    · simp [fetchFromGoogleSheetsWithRetry, MAX_RETRIES, e1, RETRY_DELAY]
    · have e2 : retryGo oracle cache 2 2 =
          ⟨(retryGo oracle cache 3 1).result,
            RETRY_DELAY * 2 ^ 1 :: (retryGo oracle cache 3 1).backoffDelays,
            (retryGo oracle cache 3 1).attemptsMade + 1⟩ :=
        retryGo_rateLimit oracle cache 2 1 (hrl 2 (by omega) (by omega))
      simp [fetchFromGoogleSheetsWithRetry, MAX_RETRIES, e1, e2, RETRY_DELAY]
    · have e2 : retryGo oracle cache 2 2 =
          ⟨(retryGo oracle cache 3 1).result,
            RETRY_DELAY * 2 ^ 1 :: (retryGo oracle cache 3 1).backoffDelays,
            (retryGo oracle cache 3 1).attemptsMade + 1⟩ :=
        retryGo_rateLimit oracle cache 2 1 (hrl 2 (by omega) (by omega))
      have e3 : retryGo oracle cache 3 1 =
          ⟨(retryGo oracle cache 4 0).result,
            RETRY_DELAY * 2 ^ 2 :: (retryGo oracle cache 4 0).backoffDelays,
            (retryGo oracle cache 4 0).attemptsMade + 1⟩ :=
        retryGo_rateLimit oracle cache 3 0 (hrl 3 (by omega) (by omega))
      simp [fetchFromGoogleSheetsWithRetry, MAX_RETRIES, e1, e2, e3, RETRY_DELAY]

def oracle429 : Nat → FetchOutcome := fun _ => Except.error "429"

theorem oracle429_rl (b : Nat) : isRateLimitOutcome (oracle429 b) = true := by
  show isRateLimitOutcome (Except.error "429") = true
  decide

theorem c4_witness :
    ((1 : Nat) ≤ 2 ∧ (2 : Nat) ≤ 3 ∧
      (∀ b, 1 ≤ b → b ≤ 2 → isRateLimitOutcome (oracle429 b) = true)) ∧
    (fetchFromGoogleSheetsWithRetry oracle429 []).backoffDelays.getD (2 - 1) 0 =
      2000 * 2 ^ (2 - 1) :=
  ⟨⟨by omega, by omega, fun b _ _ => oracle429_rl b⟩,
   (c4_backoff_delays_and_attempt_bound oracle429 []).2 2 (by omega) (by omega)
     (fun b _ _ => oracle429_rl b)⟩

/-! ### Reconciler claims -/

def sampleOld : Customer :=
  ⟨"C001", "山田花子", "やまだはなこ", "h@example.com", "090", "東京", "ポチ", "犬",
   "", 3, 0, "", "", "2024-01-01", "", "active"⟩

def sampleNew : Customer :=
  ⟨"C002", "佐藤太郎", "さとうたろう", "t@example.com", "080", "大阪", "タマ", "猫",
   "", 2, 0, "", "", "2024-01-02", "", "active"⟩

def devCfg : SheetsConfig := ⟨"development", "sheet1", "key1"⟩

def prodCfg : SheetsConfig := ⟨"production", "sheet1", "key1"⟩

def emptyKeyCfg : SheetsConfig := ⟨"production", "sheet1", ""⟩

def oracleBoom : Nat → FetchOutcome := fun _ => Except.error "parse error"

def oracleOkNew : Nat → FetchOutcome := fun _ => Except.ok [sampleNew]

/-- C3 counterexample: with an empty API key the guard of the production
branch fails, yet getCustomers still performs a remote attempt and returns
the fetched non-empty record set instead of substituting an empty result. -/
theorem c3_counterexample :
    (getCustomers emptyKeyCfg [] oracleOkNew).remoteAttempts = 1 ∧
    (getCustomers emptyKeyCfg [] oracleOkNew).result = Except.ok [sampleNew] := by
  constructor <;> decide

/-- C3 amended: when the configured source identifier or the access
credential is empty, getCustomers merely skips the guarded production branch;
it still invokes the remote fetcher at least once through the unguarded path
and returns that outcome unchanged, leaving the cache untouched, with no
empty-result substitution at this layer. -/
theorem c3_empty_config_still_fetches (cfg : SheetsConfig) (cache : List Customer)
    (oracle : Nat → FetchOutcome)
    (h : cfg.spreadsheetId = "" ∨ cfg.apiKey = "") :
    1 ≤ (getCustomers cfg cache oracle).remoteAttempts ∧
    (getCustomers cfg cache oracle).result =
      (fetchFromGoogleSheetsWithRetry oracle cache).result ∧
    (getCustomers cfg cache oracle).cacheAfter = cache := by
  have hguard : prodGuard cfg = false := by
    rcases h with h | h <;> simp [prodGuard, h]
  refine ⟨?_, ?_, ?_⟩ <;> simp [getCustomers, hguard, fetch_attempts_pos]

theorem c3_witness :
    (emptyKeyCfg.spreadsheetId = "" ∨ emptyKeyCfg.apiKey = "") ∧
    (1 ≤ (getCustomers emptyKeyCfg [] oracleOkNew).remoteAttempts ∧
     (getCustomers emptyKeyCfg [] oracleOkNew).result =
       (fetchFromGoogleSheetsWithRetry oracleOkNew []).result ∧
     (getCustomers emptyKeyCfg [] oracleOkNew).cacheAfter = []) :=
  ⟨Or.inr rfl, c3_empty_config_still_fetches emptyKeyCfg [] oracleOkNew (Or.inr rfl)⟩

/-- C5 counterexample: in a non-production configuration a first-attempt
failure that is not rate-limit-class is not compensated by the cache even
though the cache is non-empty: getCustomers surfaces the error itself. -/
theorem c5_counterexample :
    (getCustomers devCfg [sampleOld] oracleBoom).result =
      Except.error "parse error" ∧
    ([sampleOld] : List Customer) ≠ [] := by
  constructor <;> decide

/-- C5 amended: a fetch cycle whose first attempt fails with an error that is
not rate-limit-class makes no second remote attempt and records no backoff
sleep, propagating that error; in the guarded production configuration the
caller-visible result then immediately falls back to the cached record set
(or empty when the cache is empty), while other configurations surface the
error to the caller. -/
theorem c5_no_retry_on_other_error (oracle : Nat → FetchOutcome)
    (cache : List Customer) (cfg : SheetsConfig) (msg : String)
    (h1 : oracle 1 = Except.error msg) (h2 : isRateLimitError msg = false) :
    fetchFromGoogleSheetsWithRetry oracle cache = ⟨Except.error msg, [], 1⟩ ∧
    (prodGuard cfg = true →
      (getCustomers cfg cache oracle).result =
        Except.ok (if cache.length > 0 then cache else [])) := by
  have hfetch : fetchFromGoogleSheetsWithRetry oracle cache =
      ⟨Except.error msg, [], 1⟩ := by
    simp [fetchFromGoogleSheetsWithRetry, MAX_RETRIES, retryGo, h1, h2]
  refine ⟨hfetch, fun hguard => ?_⟩
  by_cases hc : cache.length > 0 <;> simp [getCustomers, hfetch, hguard, hc]

theorem c5_witness :
    (oracleBoom 1 = Except.error "parse error" ∧
     isRateLimitError "parse error" = false ∧ prodGuard prodCfg = true) ∧
    (fetchFromGoogleSheetsWithRetry oracleBoom [sampleOld] =
        ⟨Except.error "parse error", [], 1⟩ ∧
     (getCustomers prodCfg [sampleOld] oracleBoom).result =
       Except.ok (if ([sampleOld] : List Customer).length > 0 then [sampleOld]
         else [])) :=
  ⟨⟨rfl, by decide, by decide⟩,
   ⟨(c5_no_retry_on_other_error oracleBoom [sampleOld] prodCfg "parse error" rfl
       (by decide)).1,
    (c5_no_retry_on_other_error oracleBoom [sampleOld] prodCfg "parse error" rfl
       (by decide)).2 (by decide)⟩⟩

/-- C6 counterexample: in a non-production configuration a run whose three
permitted attempts all fail with rate-limit errors does not return the
non-empty cache: the max-retries error escapes getCustomers. -/
theorem c6_counterexample :
    (getCustomers devCfg [sampleOld] oracle429).result =
      Except.error maxRetriesMsg ∧
    ([sampleOld] : List Customer) ≠ [] := by
  constructor <;> decide

/-- C6 amended: when all three permitted remote attempts fail with
rate-limit-class errors and the production guard holds, getCustomers returns
the cache contents when non-empty and an empty sequence otherwise, raising no
error; in other configurations the max-retries error propagates instead. -/
theorem c6_exhausted_falls_back_in_production (oracle : Nat → FetchOutcome)
    (cache : List Customer) (cfg : SheetsConfig)
    (hrl : ∀ b, 1 ≤ b → b ≤ 3 → isRateLimitOutcome (oracle b) = true)
    (hguard : prodGuard cfg = true) :
    (getCustomers cfg cache oracle).result =
      Except.ok (if cache.length > 0 then cache else []) ∧
    (fetchFromGoogleSheetsWithRetry oracle cache).result =
      Except.error maxRetriesMsg ∧
    (fetchFromGoogleSheetsWithRetry oracle cache).attemptsMade = 3 := by
  have hfetch := fetch_three_rateLimits oracle cache (hrl 1 (by omega) (by omega))
    (hrl 2 (by omega) (by omega)) (hrl 3 (by omega) (by omega))
  refine ⟨?_, by rw [hfetch], by rw [hfetch]⟩
  by_cases hc : cache.length > 0 <;> simp [getCustomers, hfetch, hguard, hc]

theorem c6_witness :
    ((∀ b, 1 ≤ b → b ≤ 3 → isRateLimitOutcome (oracle429 b) = true) ∧
     prodGuard prodCfg = true) ∧
    ((getCustomers prodCfg [sampleOld] oracle429).result =
        Except.ok (if ([sampleOld] : List Customer).length > 0 then [sampleOld]
          else []) ∧
     (fetchFromGoogleSheetsWithRetry oracle429 [sampleOld]).result =
        Except.error maxRetriesMsg ∧
     (fetchFromGoogleSheetsWithRetry oracle429 [sampleOld]).attemptsMade = 3) :=
  ⟨⟨fun b _ _ => oracle429_rl b, by decide⟩,
   c6_exhausted_falls_back_in_production oracle429 [sampleOld] prodCfg
     (fun b _ _ => oracle429_rl b) (by decide)⟩

/-- C7 counterexample: in a non-production configuration a successful remote
fetch leaves the cache untouched: the previously cached record that is absent
from the freshly fetched set is still in the cache afterwards. -/
theorem c7_counterexample :
    (getCustomers devCfg [sampleOld] oracleOkNew).result = Except.ok [sampleNew] ∧
    (getCustomers devCfg [sampleOld] oracleOkNew).cacheAfter = [sampleOld] ∧
    sampleOld ∉ [sampleNew] := by
  refine ⟨by decide, by decide,
    fun h => absurd (congrArg Customer.id (List.mem_singleton.mp h)) (by decide)⟩

/-- C7 amended: in the guarded production configuration a successful fetch
overwrites the cache wholesale with the fetched set, so every record cached
before but absent from the new remote set is absent afterwards; in every
other configuration getCustomers leaves the cache unchanged. -/
theorem c7_cache_overwrite (cfg : SheetsConfig) (oracle : Nat → FetchOutcome)
    (cache data : List Customer)
    (hok : (fetchFromGoogleSheetsWithRetry oracle cache).result = Except.ok data) :
    (prodGuard cfg = true →
      (getCustomers cfg cache oracle).cacheAfter = data ∧
      ∀ c ∈ cache, c ∉ data → c ∉ (getCustomers cfg cache oracle).cacheAfter) ∧
    (prodGuard cfg = false → (getCustomers cfg cache oracle).cacheAfter = cache) := by
  constructor
  · intro hguard
    have hca : (getCustomers cfg cache oracle).cacheAfter = data := by
      simp [getCustomers, hguard, hok, saveLocalCustomers]
    exact ⟨hca, fun c _ hcd => by rw [hca]; exact hcd⟩
  · intro hguard
    simp [getCustomers, hguard]

theorem c7_witness :
    ((fetchFromGoogleSheetsWithRetry oracleOkNew [sampleOld]).result =
        Except.ok [sampleNew] ∧ prodGuard prodCfg = true) ∧
    ((getCustomers prodCfg [sampleOld] oracleOkNew).cacheAfter = [sampleNew] ∧
     ∀ c ∈ ([sampleOld] : List Customer), c ∉ ([sampleNew] : List Customer) →
       c ∉ (getCustomers prodCfg [sampleOld] oracleOkNew).cacheAfter) :=
  ⟨⟨by decide, by decide⟩,
   (c7_cache_overwrite prodCfg oracleOkNew [sampleOld] [sampleNew] (by decide)).1
     (by decide)⟩

/-! ### Update path and photo upload claims -/

/-- C8: when the updated record is found at zero-based position i in the
freshly fetched record sequence, the write targets sheet row i plus two and
sends a single row of exactly thirteen column values with an HTTP PUT; when
the record is absent from the fresh fetch, the update fails with an error. -/
theorem c8_update_targets_row (fetched : List Customer) (customer : Customer) :
    (∀ i, fetched.findIdx? (fun c => c.id == customer.id) = some i →
      updateCustomerInSheets fetched customer =
        Except.ok ⟨i + 2, "PUT", [sheetRowData customer]⟩ ∧
      (sheetRowData customer).length = 13) ∧
    (fetched.findIdx? (fun c => c.id == customer.id) = none →
      updateCustomerInSheets fetched customer = Except.error notFoundMsg) := by
  constructor
  · intro i hi
    have hne : (((i : Int)) == -1) = false := by
      simp only [beq_eq_false_iff_ne, ne_eq]
      omega
    constructor
    · simp [updateCustomerInSheets, findIndexJS, hi, hne, Int.toNat_natCast]
    · rfl
  · intro hn
    simp [updateCustomerInSheets, findIndexJS, hn]

theorem c8_witness :
    (([sampleOld, sampleNew].findIdx? (fun c => c.id == sampleNew.id)) = some 1) ∧
    (updateCustomerInSheets [sampleOld, sampleNew] sampleNew =
        Except.ok ⟨3, "PUT", [sheetRowData sampleNew]⟩ ∧
     (sheetRowData sampleNew).length = 13) :=
  ⟨by decide,
   (c8_update_targets_row [sampleOld, sampleNew] sampleNew).1 1 (by decide)⟩

/-- C10: an upload whose file exceeds the five-megabyte cap, or whose owning
customer already has fifty or more stored photos, yields success false with a
non-empty error message, and the stored photo collection is unchanged. -/
theorem c10_upload_rejections (store : List PetPhoto) (customerId : String)
    (file : FileUpload) (description : Option String)
    (newId dataUrl uploadedAt : String)
    (h : MAX_FILE_SIZE < file.size ∨
      MAX_PHOTOS_PER_CUSTOMER ≤ (getPhotosByCustomerId store customerId).length) :
    (uploadPhoto store customerId file description newId dataUrl
        uploadedAt).1.success = false ∧
    (∃ m, (uploadPhoto store customerId file description newId dataUrl
        uploadedAt).1.error = some m ∧ m ≠ "") ∧
    (uploadPhoto store customerId file description newId dataUrl uploadedAt).2
        = store := by
  by_cases hs : file.size > MAX_FILE_SIZE
  · refine ⟨?_, ⟨"ファイルサイズが大きすぎます。最大5MBまでです。", ?_, by decide⟩, ?_⟩ <;>
      simp [uploadPhoto, hs]
  · have hcnt : MAX_PHOTOS_PER_CUSTOMER ≤
        (getPhotosByCustomerId store customerId).length := by
      rcases h with h | h
      · exact absurd h hs
      · exact h
    refine ⟨?_, ⟨"1顧客あたり最大50枚までです。", ?_, by decide⟩, ?_⟩ <;>
      simp [uploadPhoto, hs, hcnt, ge_iff_le]

def bigFile : FileUpload := ⟨"big.jpg", 5 * 1024 * 1024 + 1⟩

theorem c10_witness :
    (MAX_FILE_SIZE < bigFile.size ∨
      MAX_PHOTOS_PER_CUSTOMER ≤ (getPhotosByCustomerId [] "C001").length) ∧
    ((uploadPhoto [] "C001" bigFile none "p1" "dataurl" "2024-01-01").1.success
        = false ∧
     (∃ m, (uploadPhoto [] "C001" bigFile none "p1" "dataurl"
        "2024-01-01").1.error = some m ∧ m ≠ "") ∧
     (uploadPhoto [] "C001" bigFile none "p1" "dataurl" "2024-01-01").2 = []) :=
  ⟨Or.inl (by decide),
   c10_upload_rejections [] "C001" bigFile none "p1" "dataurl" "2024-01-01"
     (Or.inl (by decide))⟩
